import Mathlib

/-
  Verification development for the pfuclt_omni_dataset particle filter.

  The particle state of the self robot (src/src/pfuclt_omni_dataset.cpp) is an
  array of 19 subparticle sets: columns 3r..3r+2 hold robot r's pose (r < 5,
  MAX_ROBOTS = 5 in the omni dataset configuration, visible from the hardcoded
  19 = (MAX_ROBOTS + 1) * 3 + 1 in the source), columns 15..17 the target, and
  column 18 the particle weights.  Columns are modelled as functions
  Fin P -> Rat, the whole matrix as Fin 19 -> Fin P -> Rat.  C++ float
  arithmetic is idealized as exact rational arithmetic; the transcendental
  library calls (cos, sin, exp) that some routines make are passed in as
  function parameters so that the surrounding code structure stays exact,
  and places where a claim genuinely needs real-analytic facts use Real.
-/

namespace Pfuclt

/-- Truncation of a rational toward zero, the semantics of a C++
floating-point-to-integer conversion. -/
def truncQ (q : ℚ) : ℤ :=
  if 0 ≤ q then Int.floor q else Int.ceil q

/-- The weight sum of SelfRobot::PFresample, line 310: accumulation with
std::accumulate and the int initial value 0, so every partial sum is
truncated back to int. -/
def intAccumulate (l : List ℚ) : ℤ :=
  l.foldl (fun acc w => truncQ ((acc : ℚ) + w)) 0

/-- Stable insertion of an index into an index list sorted by descending
weight: the new index goes in front of the first index of smaller or equal
weight, so earlier original indices stay in front on ties. -/
def order_index_insert {P : ℕ} (w : Fin P → ℚ) (a : Fin P) :
    List (Fin P) → List (Fin P)
  | [] => [a]
  | b :: l => if w b ≤ w a then a :: b :: l else b :: order_index_insert w a l

/-- Modelled from the spec: pfuclt_aux::order_index is declared in
pfuclt_aux.h, which is not under src/; spec section 4.1 specifies
argsort_desc as a stable permutation of the indices ordering the weights in
descending order.  Implemented as a stable insertion sort on indices. -/
def order_index {P : ℕ} (w : Fin P → ℚ) : List (Fin P) :=
  (List.finRange P).foldr (order_index_insert w) []

/-- Index lookup into the sorted index list; the list always has length P,
so the fallback value is never used. -/
def sortedIndexAt {P : ℕ} (w : Fin P → ℚ) (i : Fin P) : Fin P :=
  (order_index w).getD i.val i

/-- First entry of a column, as read by particleSet_[r][0]; 0 in the vacuous
case P = 0. -/
def colFirst {P : ℕ} (f : Fin P → ℚ) : ℚ :=
  if h : 0 < P then f ⟨0, h⟩ else 0

/-- The particle-filter state mutated by the SelfRobot callbacks: the 19
subparticle sets, the normalizedWeights member written by PFresample, and the
weightSum field of the particle message (a uint16_t cast of the sum). -/
structure RState (P : ℕ) where
  particleSet : Fin 19 → Fin P → ℚ
  normalizedWeights : Fin P → ℚ
  msgWeightSum : ℤ

/-- SelfRobot::PFresample, lines 269-470.  The live code: (1) the per-robot
standard-deviation loop writes only locals and is omitted; (2) all 19 columns
are duplicated and gathered by the index permutation sorting the weight
column in descending order; (3) the weight sum is accumulated with an int
accumulator and only compared against 0.0 for a warning - there is no
MIN_WEIGHTSUM test and no skip branch; (4) normalizedWeights is the weight
column divided by that sum; (5) the par < 100 loop copies the just-made
duplicate back over the same entries (a value-level no-op on particleSet_;
the mirror writes into pfParticles_ and the particle message are not part of
this state); (6) columns 9..11 are overwritten with fresh uniform draws in
[c - 1.5, c + 1.5) around their own first entry c; (7) the par >= 100 loop
writes only pfParticles_ and the message.  The inverse-CDF sampling body is
commented out in the source.  rand n is the n-th raw uniform [0,1) draw. -/
def PFresample {P : ℕ} (rand : ℕ → ℚ) (s : RState P) : RState P :=
  let dup := s.particleSet
  let sIdx := sortedIndexAt (s.particleSet 18)
  let sorted : Fin 19 → Fin P → ℚ := fun j i => dup j (sIdx i)
  let weightSum : ℤ := intAccumulate ((List.finRange P).map (sorted 18))
  let nw : Fin P → ℚ := fun p => sorted 18 p / (weightSum : ℚ)
  let afterCopy : Fin 19 → Fin P → ℚ := fun j p =>
    if (p : ℕ) < 100 then sorted j p else sorted j p
  let rerand : Fin 19 → Fin P → ℚ := fun j p =>
    if 9 ≤ (j : ℕ) ∧ (j : ℕ) ≤ 11 then
      (colFirst (afterCopy j) - 3/2) + 3 * rand (((j : ℕ) - 9) * P + (p : ℕ))
    else afterCopy j p
  { particleSet := rerand
    normalizedWeights := nw
    msgWeightSum := weightSum % 65536 }

/-- The uniform-initialization intervals of SelfRobot::initPFset,
lines 148-184: rows 0-8 and 12-17 repeat the field box
{0,6} x {-4.5,4.5} x {-PI,PI}; rows 9-11 (OMNI4) are small boxes around
POS_INIT[6], POS_INIT[7] and PI.  PI and the POS_INIT entries come from the
missing header / parameter server and are taken as parameters. -/
def initRanges (PI POS6 POS7 : ℚ) (i : Fin 18) : ℚ × ℚ :=
  if (i : ℕ) = 9 then (POS6 - 1/2, POS6 + 1/2)
  else if (i : ℕ) = 10 then (POS7 - 1/2, POS7 + 1/2)
  else if (i : ℕ) = 11 then (PI - 1/1000, PI + 1/1000)
  else match (i : ℕ) % 3 with
    | 0 => (0, 6)
    | 1 => (-(9/2), 9/2)
    | _ => (-PI, PI)

/-- SelfRobot::initPFset, lines 145-261: each of the 18 pose/target columns
is drawn uniformly from its row of the table (rand n is the n-th raw uniform
[0,1) draw), and the weight column is assigned 1 / N_PARTICLES - an integer
division, because N_PARTICLES is an int (read with readParam over int at
line 1120). -/
def initPFset (PI POS6 POS7 : ℚ) (rand : ℕ → ℚ) (P : ℕ) :
    Fin 19 → Fin P → ℚ := fun j p =>
  if h : (j : ℕ) < 18 then
    let r := initRanges PI POS6 POS7 ⟨j, h⟩
    r.1 + (r.2 - r.1) * rand ((j : ℕ) * P + (p : ℕ))
  else (((1 : ℤ) / (P : ℤ) : ℤ) : ℚ)

/-- Events recording which particle-filter steps a sensor callback invokes. -/
inductive CallEvent
  | resample
  | publishState
deriving DecidableEq

/-- One landmark observation as consumed by the fusion loop of
SelfRobot::selfLandmarkDataCallback: the found flag (after the distance
heuristics of lines 591-749) together with the map position of the landmark,
the measured position and the covariances computed at lines 777-791. -/
structure LandmarkObsQ where
  found : Bool
  Lx : ℚ
  Ly : ℚ
  zx : ℚ
  zy : ℚ
  covXX : ℚ
  covYY : ℚ

/-- The Gaussian exponent of lines 820-850: the expected observation Zcap
from the particle pose, then -1/2 of the Mahalanobis form under
diag(covXX, covYY). -/
def expArgQ (cosQ sinQ : ℚ → ℚ) (lm : LandmarkObsQ) (x y θ : ℚ) : ℚ :=
  let zc0 := (lm.Lx - x) * cosQ θ + (lm.Ly - y) * sinQ θ
  let zc1 := -(lm.Lx - x) * sinQ θ + (lm.Ly - y) * cosQ θ
  let mahal := (lm.zx - zc0) ^ 2 / lm.covXX + (lm.zy - zc1) ^ 2 / lm.covYY
  (-(1/2)) * mahal

/-- SelfRobot::selfLandmarkDataCallback, lines 585-882, on the particle
state: lines 757-761 reset the whole weight column to 1.0; lines 764-867
add exp(ExpArg) to the weight of every particle for every found landmark
(detValue, the normalization factor of line 851, is computed but never
used); line 870 calls PFresample and line 881 publishState.  r is the
0-based robot index (RobotNumber - 1).  cos, sin and exp are passed in as
cosQ, sinQ, expQ. -/
def selfLandmarkDataCallback {P : ℕ} (expQ cosQ sinQ : ℚ → ℚ) (rand : ℕ → ℚ)
    (r : Fin 5) (lms : List LandmarkObsQ) (s : RState P) :
    RState P × List CallEvent :=
  let fused : Fin 19 → Fin P → ℚ := fun j p =>
    if (j : ℕ) = 18 then
      (lms.filter (fun lm => lm.found)).foldl
        (fun w lm => w + expQ (expArgQ cosQ sinQ lm
          (s.particleSet ⟨3 * (r : ℕ), by omega⟩ p)
          (s.particleSet ⟨3 * (r : ℕ) + 1, by omega⟩ p)
          (s.particleSet ⟨3 * (r : ℕ) + 2, by omega⟩ p))) 1
    else s.particleSet j p
  (PFresample rand { s with particleSet := fused },
   [CallEvent.resample, CallEvent.publishState])

/-- The ball observation message consumed by the target callbacks. -/
structure BallDataQ where
  found : Bool
  x : ℚ
  y : ℚ
  z : ℚ
  mismatchFactor : ℚ

/-- SelfRobot::selfTargetDataCallback, lines 549-583: when the ball is found
it computes covariance values into local variables and then returns; it
performs no write to the particle state and invokes no filter step. -/
def selfTargetDataCallback {P : ℕ} (b : BallDataQ) (s : RState P) :
    RState P × List CallEvent :=
  (s, [])

/-- TeammateRobot::teammateTargetDataCallback, lines 990-1022: covariance
locals only; no state write, no filter step. -/
def teammateTargetDataCallback {P : ℕ} (b : BallDataQ) (s : RState P) :
    RState P × List CallEvent :=
  (s, [])

/-- TeammateRobot::teammateLandmarkDataCallback, lines 1024-1067: covariance
locals only; no state write, no filter step. -/
def teammateLandmarkDataCallback {P : ℕ} (lms : List LandmarkObsQ)
    (s : RState P) : RState P × List CallEvent :=
  (s, [])

/-- A target observation as buffered per robot
(particles.h, struct targetObs_s). -/
structure TargetObsQ where
  found : Bool
  x : ℚ
  y : ℚ
  z : ℚ
  d : ℚ
  phi : ℚ
  covDD : ℚ
  covPP : ℚ
  covXX : ℚ
  covYY : ℚ

/-- A robot state belief (particles.h, struct robotState_s): the pose vector
(poseSize = nStatesPerRobot = 3) and the confidence scalar. -/
structure RobotStateQ where
  pose : Fin 3 → ℚ
  conf : ℚ

/-- The target velocity estimator state (particles.h,
struct targetVelocityEstimator_s): the time vector, the per-axis position
vectors (numberVels = STATES_PER_TARGET = 3), the capacity bound and the
time origin.  The constructor passes maxDataSize = MAX_ESTIMATOR_STACK_SIZE
= 15 and empty vectors. -/
structure TVE where
  timeVec : List ℚ
  posVec : Fin 3 → List ℚ
  maxDataSize : ℕ
  timeInit : ℕ

/-- The constructor state of the estimator inside State
(particles.h, lines 259-267): empty vectors, capacity 15. -/
def TVE.mk0 : TVE :=
  { timeVec := [], posVec := fun _ => [], maxDataSize := 15, timeInit := 0 }

/-- The robot-choice loop of targetVelocityEstimator_s::insert,
lines 183-196: scan the robots in order; a robot is taken as the new chosen
robot when its observation is found, its conf strictly exceeds the running
maximum (initially 0.0) and both observation coordinates are below 4.0.
Returns the finally chosen observation/state pair, or none when no robot
ever qualified (readyToInsert stays false). -/
def scanRobots : List (TargetObsQ × RobotStateQ) →
    Option (TargetObsQ × RobotStateQ) → ℚ → Option (TargetObsQ × RobotStateQ)
  | [], chosen, _ => chosen
  | (obs, rs) :: rest, chosen, maxConf =>
    if obs.found = true ∧ maxConf < rs.conf ∧ obs.x < 4 ∧ obs.y < 4 then
      scanRobots rest (some (obs, rs)) rs.conf
    else
      scanRobots rest chosen maxConf

/-- targetVelocityEstimator_s::insert, lines 171-227.  If no robot
qualifies, return unchanged.  Otherwise transform the chosen observation to
the world frame with the chosen robot's pose (cos and sin passed in as cosQ
and sinQ), set the time origin on first use (timeInit is a uint, so the
current time nowT is truncated), push the sample onto every vector, and if
the time vector then exceeds maxDataSize erase the front element of every
vector. -/
def TVE.insert (cosQ sinQ : ℚ → ℚ) (nowT timeData : ℚ)
    (robots : List (TargetObsQ × RobotStateQ)) (st : TVE) : TVE :=
  match scanRobots robots none 0 with
  | none => st
  | some (obs, rs) =>
    let θ := rs.pose 2
    let ballGlobal : Fin 3 → ℚ :=
      ![rs.pose 0 + obs.x * cosQ θ - obs.y * sinQ θ,
        rs.pose 1 + obs.x * sinQ θ + obs.y * cosQ θ,
        obs.z]
    let tInit : ℕ := if st.timeVec.isEmpty then (truncQ nowT).toNat else st.timeInit
    let timeVec1 := st.timeVec ++ [timeData - (tInit : ℚ)]
    let posVec1 : Fin 3 → List ℚ := fun v => st.posVec v ++ [ballGlobal v]
    if st.maxDataSize < timeVec1.length then
      { timeVec := timeVec1.tail
        posVec := fun v => (posVec1 v).tail
        maxDataSize := st.maxDataSize
        timeInit := tInit }
    else
      { timeVec := timeVec1
        posVec := posVec1
        maxDataSize := st.maxDataSize
        timeInit := tInit }

/-
  Real-valued models for the claims that need facts about the actual
  transcendental functions: the landmark likelihood computation of
  selfLandmarkDataCallback (lines 820-863) and the particle prediction of
  selfOdometryCallback (lines 515-541).
-/

/-- A single found landmark for the real-valued fusion model: map position,
measured position and the covariances computed at lines 777-791. -/
structure LmFuse where
  Lx : ℝ
  Ly : ℝ
  zx : ℝ
  zy : ℝ
  covXX : ℝ
  covYY : ℝ

/-- Zcap[0] of lines 825-829: expected observation x in the robot frame. -/
noncomputable def zHat0 (lm : LmFuse) (x y θ : ℝ) : ℝ :=
  (lm.Lx - x) * Real.cos θ + (lm.Ly - y) * Real.sin θ

/-- Zcap[1] of lines 831-835: expected observation y in the robot frame. -/
noncomputable def zHat1 (lm : LmFuse) (x y θ : ℝ) : ℝ :=
  (-(lm.Lx - x)) * Real.sin θ + (lm.Ly - y) * Real.cos θ

/-- ExpArg of lines 849-850. -/
noncomputable def expArgR (lm : LmFuse) (x y θ : ℝ) : ℝ :=
  (-(1/2)) * ((lm.zx - zHat0 lm x y θ) ^ 2 / lm.covXX +
    (lm.zy - zHat1 lm x y θ) ^ 2 / lm.covYY)

/-- detValue of line 851: powf(2 PI covXX covYY, -0.5).  The source computes
this normalization constant and never uses it. -/
noncomputable def detValueR (lm : LmFuse) : ℝ :=
  (2 * Real.pi * lm.covXX * lm.covYY) ^ (-(1/2) : ℝ)

/-- The weight of one particle with pose (x, y, θ) after the landmark loop
of selfLandmarkDataCallback: lines 757-761 reset the weight to 1.0, and for
each found landmark lines 859-860 ADD 1 * exp(ExpArg) to it.  The weight
held before the callback does not appear: it is overwritten by the reset. -/
noncomputable def fuseLandmarksCode (lms : List LmFuse) (x y θ : ℝ) : ℝ :=
  lms.foldl (fun w lm => w + Real.exp (expArgR lm x y θ)) 1

/-- Modelled from the spec, for comparison with fuseLandmarksCode: spec
section 4.6 requires, for prior weight w, multiplying w by the product over
found landmarks of the normalized Gaussian likelihood
(2 pi covXX covYY)^(-1/2) * exp(ExpArg). -/
noncomputable def specFuseLandmarks (lms : List LmFuse) (x y θ w : ℝ) : ℝ :=
  w * lms.foldl (fun f lm => f * (detValueR lm * Real.exp (expArgR lm x y θ))) 1

/-- The self-robot particle prediction body of selfOdometryCallback,
lines 517-533, on one particle (x, y, θ) with odometry (dx, dy, dθ): the
particle pose is composed with the odometry isometry, so the new translation
is (x, y) + R(θ)(dx, dy), and the new angle column is read back as
acos((R(θ)R(dθ))(0,0)) - the acos of the top-left rotation entry. -/
noncomputable def predictParticle (x y θ dx dy dθ : ℝ) : ℝ × ℝ × ℝ :=
  (x + Real.cos θ * dx - Real.sin θ * dy,
   y + Real.sin θ * dx + Real.cos θ * dy,
   Real.arccos (Real.cos θ * Real.cos dθ - Real.sin θ * Real.sin dθ))

/-
  Concrete states used by the claim theorems.
-/

/-- A 2-particle state with weights (2, 1): already in descending order, and
the int-accumulated weight sum is 3. -/
def s2ex : RState 2 :=
  { particleSet := fun j p => if j = 18 then (if p = 0 then 2 else 1) else 0
    normalizedWeights := fun _ => 0
    msgWeightSum := 0 }

/-- A 2-particle state with weights (2, 1) and column 9 equal to (7, 8). -/
def s3ex : RState 2 :=
  { particleSet := fun j p =>
      if j = 18 then (if p = 0 then 2 else 1)
      else if j = 9 then (if p = 0 then 7 else 8)
      else 0
    normalizedWeights := fun _ => 0
    msgWeightSum := 0 }

/-- A 2-particle state with degenerate weights (10^-12, 2 * 10^-12): their
true sum 3 * 10^-12 is below MIN_WEIGHTSUM = 10^-10. -/
def s6ex : RState 2 :=
  { particleSet := fun j p =>
      if j = 18 then
        (if p = 0 then 1/1000000000000 else 2/1000000000000)
      else 0
    normalizedWeights := fun _ => 0
    msgWeightSum := 0 }

/-- A 2-particle state with weights (1, 2) (ascending, so the descending
sort is a non-trivial permutation) and column 3 - the x column of robot
OMNI2 - equal to (5, 6). -/
def s8ex : RState 2 :=
  { particleSet := fun j p =>
      if j = 18 then (if p = 0 then 1 else 2)
      else if j = 3 then (if p = 0 then 5 else 6)
      else 0
    normalizedWeights := fun _ => 0
    msgWeightSum := 0 }

/-- The concrete found landmark for the fusion evaluation: landmark mapped
at (1, 0), measured at (1, 0), covXX = covYY = 1. -/
def lmEx : LmFuse :=
  { Lx := 1, Ly := 0, zx := 1, zy := 0, covXX := 1, covYY := 1 }

/-- A found target observation at (0, 0, 0) inside the sanity box. -/
def obsOkQ : TargetObsQ :=
  { found := true, x := 0, y := 0, z := 0, d := 0, phi := 0,
    covDD := 0, covPP := 0, covXX := 0, covYY := 0 }

/-- A robot state with conf = 0 (the value every robot carries before the
first landmark fusion assigns a confidence). -/
def rsConf0 : RobotStateQ :=
  { pose := fun _ => 0, conf := 0 }

/-- A robot state with conf = 1. -/
def rsConf1 : RobotStateQ :=
  { pose := fun _ => 0, conf := 1 }

/-- An estimator state holding 15 samples - at capacity. -/
def tveFull : TVE :=
  { timeVec := List.replicate 15 0
    posVec := fun _ => List.replicate 15 0
    maxDataSize := 15
    timeInit := 0 }

/-
  Theorems.  First a few small helper lemmas shared by the concrete
  evaluations, then one theorem per claim.
-/

/-- Value of the Fin 19 literal 18. -/
theorem finv18 : ((18 : Fin 19) : ℕ) = 18 := rfl

/-- Value of the Fin 19 literal 9. -/
theorem finv9 : ((9 : Fin 19) : ℕ) = 9 := rfl

/-- The robot scan returns none when, for a nonnegative running maximum, no
robot has a found observation inside the sanity box with positive conf. -/
theorem scanRobots_eq_none (l : List (TargetObsQ × RobotStateQ))
    (h : ∀ pr ∈ l, pr.1.found = true →
      (pr.2.conf ≤ 0 ∨ 4 ≤ pr.1.x ∨ 4 ≤ pr.1.y))
    (maxConf : ℚ) (hmc : 0 ≤ maxConf) :
    scanRobots l none maxConf = none := by
  induction l generalizing maxConf with
  | nil => rfl
  | cons pr rest ih =>
    obtain ⟨obs, rs⟩ := pr
    rw [scanRobots, if_neg]
    · exact ih (fun q hq => h q (List.mem_cons_of_mem _ hq)) maxConf hmc
    · rintro ⟨hf, hc, hx, hy⟩
      rcases h (obs, rs) (List.mem_cons_self _ _) hf with h1 | h1 | h1
      · exact absurd hc (not_lt.mpr (h1.trans hmc))
      · exact absurd hx (not_lt.mpr h1)
      · exact absurd hy (not_lt.mpr h1)

/-- Dropping the last element of the tail of l ++ [x] gives the tail of l,
for nonempty l. -/
theorem tail_append_singleton_dropLast (l : List ℚ) (x : ℚ) (h : l ≠ []) :
    ((l ++ [x]).tail).dropLast = l.tail := by
  cases l with
  | nil => exact absurd rfl h
  | cons a as => simp

/-- C1: in the landmark fusion of selfLandmarkDataCallback the particle
weight is NOT multiplied by the normalized Gaussian likelihood: the weight
column is first reset to 1 and then exp(ExpArg) is ADDED per found landmark,
and the computed normalization factor detValue is never used.  At the
concrete input (landmark at (1,0), observation (1,0), covXX = covYY = 1,
particle pose (0,0,0), prior weight 5) the code yields 1 + exp 0 = 2, while
the claimed multiplicative update yields 5 * (2 pi)^(-1/2). -/
theorem fuse_landmark_additive_not_multiplicative :
    fuseLandmarksCode [lmEx] 0 0 0 = 2 ∧
    fuseLandmarksCode [lmEx] 0 0 0 ≠ specFuseLandmarks [lmEx] 0 0 0 5 := by
  have harg : expArgR lmEx 0 0 0 = 0 := by
    simp [expArgR, zHat0, zHat1, lmEx]
  have hcode : fuseLandmarksCode [lmEx] 0 0 0 = 2 := by
    simp [fuseLandmarksCode, harg, Real.exp_zero]
    norm_num
  refine ⟨hcode, ?_⟩
  rw [hcode]
  have hspec : specFuseLandmarks [lmEx] 0 0 0 5
      = 5 * (2 * Real.pi) ^ (-(1/2) : ℝ) := by
    rw [specFuseLandmarks]
    simp only [List.foldl_cons, List.foldl_nil, harg, Real.exp_zero, one_mul,
      mul_one]
    rw [detValueR]
    norm_num [lmEx]
  rw [hspec]
  intro h
  have h2pi : (0 : ℝ) < 2 * Real.pi := by positivity
  have hsq : ((2 * Real.pi) ^ (-(1/2) : ℝ)) * ((2 * Real.pi) ^ (-(1/2) : ℝ))
      = (2 * Real.pi)⁻¹ := by
    rw [← Real.rpow_add h2pi]
    have hexp : (-(1/2) : ℝ) + (-(1/2)) = -1 := by norm_num
    rw [hexp, Real.rpow_neg_one]
  have hs : (2 * Real.pi) ^ (-(1/2) : ℝ) = 2 / 5 := by linarith
  rw [hs] at hsq
  have hinv : (2 * Real.pi)⁻¹ = 4 / 25 := by rw [← hsq]; norm_num
  have h2 : 2 * Real.pi = 25 / 4 := by
    have h4 : ((2 * Real.pi)⁻¹)⁻¹ = ((4 : ℝ) / 25)⁻¹ := by rw [hinv]
    rw [inv_inv] at h4
    rw [h4]
    norm_num
  have hgt := Real.pi_gt_d6
  linarith

/-- C2: after PFresample the weight column is not reset to 1/P: the state
s2ex with weights (2, 1) - weight sum 3, so no degenerate branch by any
reading - keeps weight 2 in entry 0, not 1/2. -/
theorem resample_weights_not_uniform :
    (PFresample (fun _ => 0) s2ex).particleSet 18 0 = 2 ∧
    (2 : ℚ) ≠ 1 / 2 ∧
    (PFresample (fun _ => 0) s2ex).msgWeightSum = 3 := by
  refine ⟨by decide, by norm_num, ?_⟩
  norm_num [PFresample, intAccumulate, truncQ, sortedIndexAt, order_index,
    order_index_insert, s2ex, List.finRange, List.range, List.range.loop,
    List.pmap, colFirst, finv18]

/-- C3: PFresample does no inverse-CDF sampling for the non-elite slots and
does not copy the elite particles verbatim.  On s3ex (P = 2, weights (2,1),
column 9 = (7,8)): slot 1 - a non-elite slot under RESAMPLE_START_AT = 0.5 -
receives the lowest-weight sorted particle for EVERY random stream, and
column 9 (an OMNI4 pose column) of the top particle is overwritten with a
fresh uniform draw (7 - 1.5 with the all-zero stream), so the kept particle
is not copied verbatim. -/
theorem resample_no_inverse_cdf :
    (∀ rand : ℕ → ℚ, (PFresample rand s3ex).particleSet 18 1 = 1) ∧
    (PFresample (fun _ => 0) s3ex).particleSet 9 0 = 11 / 2 ∧
    s3ex.particleSet 9 0 = 7 := by
  refine ⟨fun rand => rfl, ?_, by decide⟩
  norm_num [PFresample, intAccumulate, truncQ, sortedIndexAt, order_index,
    order_index_insert, s3ex, List.finRange, List.range, List.range.loop,
    List.pmap, colFirst, finv9, finv18, Fin.ext_iff]

/-- C4 (amended): the fuse-resample sequence is driven by the main robot's
landmark data callback, which ends by invoking PFresample and publishState;
the main robot's target data callback and the teammate callbacks leave the
particle state untouched and invoke no filter step. -/
theorem iteration_driven_by_landmark_callback {P : ℕ} (b c : BallDataQ)
    (s sb sc : RState P) (expQ cosQ sinQ : ℚ → ℚ) (rand : ℕ → ℚ) (r : Fin 5)
    (lms lmsb : List LandmarkObsQ) :
    selfTargetDataCallback b s = (s, []) ∧
    teammateTargetDataCallback c sb = (sb, []) ∧
    teammateLandmarkDataCallback lmsb sc = (sc, []) ∧
    (selfLandmarkDataCallback expQ cosQ sinQ rand r lms s).2 =
      [CallEvent.resample, CallEvent.publishState] :=
  ⟨rfl, rfl, rfl, rfl⟩

/-- C4 counterexample: a landmark notification DOES trigger the resample
step - the landmark callback's invocation list contains resample. -/
theorem landmark_callback_triggers_resample :
    CallEvent.resample ∈
      (selfLandmarkDataCallback (fun _ => 1) (fun _ => 1) (fun _ => 0)
        (fun _ => 0) 0 [] s2ex).2 := by
  decide

/-- C5: initPFset assigns the weight column 1 / N_PARTICLES with integer
division, so with 100 particles every weight is initialized to 0, not
1/100. -/
theorem init_weights_zero :
    ∀ (PI POS6 POS7 : ℚ) (rand : ℕ → ℚ) (p : Fin 100),
      initPFset PI POS6 POS7 rand 100 18 p = 0 ∧ (0 : ℚ) ≠ 1 / 100 := by
  intro PI POS6 POS7 rand p
  constructor
  · rw [initPFset, dif_neg (by norm_num [finv18])]
    norm_num
  · norm_num

/-- C6: with the degenerate weights of s6ex (true sum 3e-12, far below
MIN_WEIGHTSUM = 1e-10) PFresample does not skip: the matrix is still
rearranged by the descending-weight sort (entry 0 of the weight column
changes from 1e-12 to 2e-12), and the weight sum it computes is the
int-accumulated value 0, not the floating-point sum. -/
theorem resample_degenerate_not_skipped :
    (PFresample (fun _ => 0) s6ex).particleSet 18 0 = 2 / 1000000000000 ∧
    s6ex.particleSet 18 0 = 1 / 1000000000000 ∧
    (PFresample (fun _ => 0) s6ex).msgWeightSum = 0 := by
  refine ⟨?_, rfl, ?_⟩
  · norm_num [PFresample, intAccumulate, truncQ, sortedIndexAt, order_index,
      order_index_insert, s6ex, List.finRange, List.range, List.range.loop,
      List.pmap, colFirst, finv18]
  · norm_num [PFresample, intAccumulate, truncQ, sortedIndexAt, order_index,
      order_index_insert, s6ex, List.finRange, List.range, List.range.loop,
      List.pmap, colFirst, finv18]

/-- C7 (amended): applying the zero odometry (0,0,0) to a particle leaves
the x and y columns unchanged but replaces the angle theta by
arccos(cos theta) - the acos readback of the rotation matrix - which equals
theta only for theta in [0, pi]. -/
theorem predict_zero_odometry (x y θ : ℝ) :
    predictParticle x y θ 0 0 0 = (x, y, Real.arccos (Real.cos θ)) := by
  simp [predictParticle]

/-- C7 counterexample: at pose (0, 0, -pi/2) the zero odometry changes the
angle column: acos(cos(-pi/2)) = pi/2, not -pi/2. -/
theorem predict_zero_odometry_negative_angle :
    predictParticle 0 0 (-(Real.pi / 2)) 0 0 0 ≠ (0, 0, -(Real.pi / 2)) := by
  intro h
  have h3 := congrArg (fun t : ℝ × ℝ × ℝ => t.2.2) h
  simp [predictParticle, Real.cos_pi_div_two, Real.arccos_zero] at h3
  have hπ := Real.pi_pos
  linarith

/-- C8: PFresample permutes every column by the weight sort, including the
pose columns of robots that are not in the used set; on s8ex (weights
(1, 2), OMNI2 x column = (5, 6)) the OMNI2 x column entry 0 changes from 5
to 6, although OMNI2 is never consulted. -/
theorem resample_mutates_disabled_robot_columns :
    (PFresample (fun _ => 0) s8ex).particleSet 3 0 = 6 ∧
    s8ex.particleSet 3 0 = 5 :=
  ⟨by decide, by decide⟩

/-- C9: the target velocity estimator's insert adds a sample only when some
robot simultaneously has a found observation with x < 4, y < 4 and conf
strictly above 0; when every found observation fails one of those conditions
(in particular, when every conf is 0) the estimator state is returned
unchanged. -/
theorem velocity_estimator_insert_requires_conf (cosQ sinQ : ℚ → ℚ)
    (nowT t : ℚ) (robots : List (TargetObsQ × RobotStateQ)) (st : TVE)
    (h : ∀ pr ∈ robots, pr.1.found = true →
      (pr.2.conf ≤ 0 ∨ 4 ≤ pr.1.x ∨ 4 ≤ pr.1.y)) :
    TVE.insert cosQ sinQ nowT t robots st = st := by
  unfold TVE.insert
  rw [scanRobots_eq_none robots h 0 le_rfl]

/-- C9 witness: a robot with a found in-box observation but conf = 0 (the
pre-fusion confidence) inserts nothing. -/
theorem velocity_estimator_insert_requires_conf_witness :
    (∀ pr ∈ [(obsOkQ, rsConf0)], pr.1.found = true →
      (pr.2.conf ≤ 0 ∨ 4 ≤ pr.1.x ∨ 4 ≤ pr.1.y)) ∧
    TVE.insert (fun _ => 1) (fun _ => 0) 0 0 [(obsOkQ, rsConf0)] TVE.mk0
      = TVE.mk0 :=
  ⟨by decide,
   velocity_estimator_insert_requires_conf _ _ _ _ _ _ (by decide)⟩

/-- C10: insert keeps the time vector within maxDataSize = 15, keeps every
per-axis position vector exactly as long as the time vector, and when the
capacity would be exceeded it is the front (oldest) sample that is dropped
from all vectors. -/
theorem velocity_estimator_insert_bounded (cosQ sinQ : ℚ → ℚ) (nowT t : ℚ)
    (robots : List (TargetObsQ × RobotStateQ)) (st : TVE)
    (hm : st.maxDataSize = 15)
    (hlen : st.timeVec.length ≤ 15)
    (hpos : ∀ v, (st.posVec v).length = st.timeVec.length) :
    ((TVE.insert cosQ sinQ nowT t robots st).timeVec.length ≤ 15) ∧
    (∀ v, ((TVE.insert cosQ sinQ nowT t robots st).posVec v).length =
      (TVE.insert cosQ sinQ nowT t robots st).timeVec.length) ∧
    (st.timeVec.length = 15 → (scanRobots robots none 0).isSome = true →
      ((TVE.insert cosQ sinQ nowT t robots st).timeVec.dropLast
          = st.timeVec.tail ∧
       ∀ v, ((TVE.insert cosQ sinQ nowT t robots st).posVec v).dropLast
          = (st.posVec v).tail)) := by
  rcases hscan : scanRobots robots none 0 with _ | ⟨obs, rs⟩
  · simp only [TVE.insert, hscan]
    exact ⟨hlen, hpos, fun _ hsome => by simp at hsome⟩
  · by_cases hfull : st.timeVec.length = 15
    · have hne : st.timeVec ≠ [] := by
        intro hnil
        rw [hnil] at hfull
        simp at hfull
      have hcond : st.maxDataSize <
          (st.timeVec ++ [t - ((if st.timeVec.isEmpty then (truncQ nowT).toNat
            else st.timeInit : ℕ) : ℚ)]).length := by
        simp [hm, hfull]
      simp only [TVE.insert, hscan, if_pos hcond]
      refine ⟨?_, ?_, ?_⟩
      · simp [hfull]
      · intro v
        simp [hpos v]
      · intro _ _
        refine ⟨tail_append_singleton_dropLast _ _ hne, fun v => ?_⟩
        have hvne : st.posVec v ≠ [] := by
          intro hnil
          have := hpos v
          rw [hnil, hfull] at this
          simp at this
        exact tail_append_singleton_dropLast _ _ hvne
    · have hlt : st.timeVec.length < 15 := lt_of_le_of_ne hlen hfull
      have hcond : ¬ st.maxDataSize <
          (st.timeVec ++ [t - ((if st.timeVec.isEmpty then (truncQ nowT).toNat
            else st.timeInit : ℕ) : ℚ)]).length := by
        simp [hm]
        omega
      simp only [TVE.insert, hscan, if_neg hcond]
      refine ⟨?_, ?_, ?_⟩
      · simp
        omega
      · intro v
        simp [hpos v]
      · intro h15
        exact absurd h15 hfull

/-- C10 witness: inserting into a full 15-sample estimator with one
qualifying robot keeps all lengths at 15 and drops the front sample. -/
theorem velocity_estimator_insert_bounded_witness :
    (tveFull.maxDataSize = 15 ∧ tveFull.timeVec.length ≤ 15 ∧
      (∀ v, (tveFull.posVec v).length = tveFull.timeVec.length)) ∧
    (((TVE.insert (fun _ => 1) (fun _ => 0) 0 0 [(obsOkQ, rsConf1)]
        tveFull).timeVec.length ≤ 15) ∧
     (∀ v, ((TVE.insert (fun _ => 1) (fun _ => 0) 0 0 [(obsOkQ, rsConf1)]
        tveFull).posVec v).length =
        (TVE.insert (fun _ => 1) (fun _ => 0) 0 0 [(obsOkQ, rsConf1)]
          tveFull).timeVec.length) ∧
     (tveFull.timeVec.length = 15 →
        (scanRobots [(obsOkQ, rsConf1)] none 0).isSome = true →
        (((TVE.insert (fun _ => 1) (fun _ => 0) 0 0 [(obsOkQ, rsConf1)]
            tveFull).timeVec.dropLast = tveFull.timeVec.tail) ∧
         ∀ v, ((TVE.insert (fun _ => 1) (fun _ => 0) 0 0 [(obsOkQ, rsConf1)]
            tveFull).posVec v).dropLast = (tveFull.posVec v).tail))) :=
  ⟨⟨rfl, by decide, fun _ => rfl⟩,
   velocity_estimator_insert_bounded _ _ _ _ _ _ rfl (by decide)
     (fun _ => rfl)⟩

end Pfuclt
